import Mathlib

/-!
Verification development for the groupie-tracker ingestion pipeline
(`api/api.go` and the record types of the `models` package).

The HTTP transport and the standard-library JSON decoder are external to the
repository; they are abstracted as an environment (`HttpOutcome`, `Body`,
`Upstream`) that says, for each fetch attempt, how long the round trip takes
and what it yields.  Everything the repository itself does — the four fetch
functions, the retry loop of each goroutine in `InitializeData`, the
channel fan-in, the catalog-store updates and the scheduler's status
transitions in `RefreshData` — is translated below directly from the source.
Time is measured in milliseconds.
-/

namespace GroupieTracker

/-- `models.Artists` from the models package. -/
structure Artists where
  ID : Int
  Image : String
  Name : String
  Members : List String
  CreationDate : Int
  FirstAlbum : String
  Locations : String
  ConcertDates : String
  Relations : String
deriving DecidableEq, Repr

/-- `models.Locations`. -/
structure Locations where
  ID : Int
  Locations : List String
  Dates : String
deriving DecidableEq, Repr

/-- `models.LocationsIndex`: the `{"index": [...]}` wrapper object. -/
structure LocationsIndex where
  Index : List Locations
deriving DecidableEq, Repr

/-- `models.Dates`. -/
structure Dates where
  ID : Int
  ConcertDates : List String
deriving DecidableEq, Repr

/-- `models.DatesIndex`. -/
structure DatesIndex where
  Index : List Dates
deriving DecidableEq, Repr

/-- `models.Relations`; the Go `map[string][]string` is modelled as an
association list. -/
structure Relations where
  ID : Int
  DatesLocations : List (String × List String)
  SortedLocations : List String
deriving DecidableEq, Repr

/-- `models.RelationIndex`. -/
structure RelationIndex where
  Index : List Relations
deriving DecidableEq, Repr

def ARTISTS_API : String := "https://groupietrackers.herokuapp.com/api/artists"

def LOCATIONS_API : String := "https://groupietrackers.herokuapp.com/api/locations"

def DATES_API : String := "https://groupietrackers.herokuapp.com/api/dates"

def RELATIONS_API : String := "https://groupietrackers.herokuapp.com/api/relation"

/-- A response body as seen through `encoding/json`: either it fails to
decode into the expected shape (with the decoder's message), or it decodes
to a value of that shape. -/
inductive Body (α : Type) where
  | malformed (msg : String)
  | value (a : α)
deriving DecidableEq, Repr

/-- Outcome of one HTTP round trip for a request whose body is decoded into
`α`: request construction failed, the transport failed before a response
arrived, or a response with a status code and a body was obtained. -/
inductive HttpOutcome (α : Type) where
  | reqError (msg : String)
  | transportError (msg : String)
  | response (status : Nat) (body : Body α)
deriving DecidableEq, Repr

/-- `FetchArtistsWithContext`: build the request, do it, require status 200,
decode a JSON array of artists.  Mirrors the Go pair return `([]models.Artists,
error)`: the first component is `none` on every failure path. -/
def FetchArtistsWithContext : HttpOutcome (List Artists) → Option (List Artists) × Option String
  | .reqError m => (none, some ("Failed to create request: " ++ m))
  | .transportError m =>
      (none, some ("Failed to fetch from " ++ (ARTISTS_API ++ (" with error: " ++ m))))
  | .response status body =>
      if status ≠ 200 then
        (none, some ("API Unexpected status: " ++ toString status))
      else
        match body with
        | .malformed m => (none, some ("JSON decode failed: " ++ m))
        | .value artists => (some artists, none)

/-- `FetchLocationsWithContext`: as for artists, but the body decodes into a
`models.LocationsIndex` wrapper and the function returns its `Index` field. -/
def FetchLocationsWithContext : HttpOutcome LocationsIndex → Option (List Locations) × Option String
  | .reqError m => (none, some ("Failed to create request: " ++ m))
  | .transportError m =>
      (none, some ("Failed to fetch from " ++ (LOCATIONS_API ++ (" with error: " ++ m))))
  | .response status body =>
      if status ≠ 200 then
        (none, some ("API Unexpected status: " ++ toString status))
      else
        match body with
        | .malformed m => (none, some ("JSON decode failed: " ++ m))
        | .value concert_locations => (some concert_locations.Index, none)

/-- `FetchDatesWithContext`. -/
def FetchDatesWithContext : HttpOutcome DatesIndex → Option (List Dates) × Option String
  | .reqError m => (none, some ("Failed to create request: " ++ m))
  | .transportError m =>
      (none, some ("Failed to fetch from " ++ (DATES_API ++ (" with error: " ++ m))))
  | .response status body =>
      if status ≠ 200 then
        (none, some ("API Unexpected status: " ++ toString status))
      else
        match body with
        | .malformed m => (none, some ("JSON decode failed: " ++ m))
        | .value concert_dates => (some concert_dates.Index, none)

/-- `FetchRelationsWithContext`. -/
def FetchRelationsWithContext : HttpOutcome RelationIndex → Option (List Relations) × Option String
  | .reqError m => (none, some ("Failed to create request: " ++ m))
  | .transportError m =>
      (none, some ("Failed to fetch from " ++ (RELATIONS_API ++ (" with error: " ++ m))))
  | .response status body =>
      if status ≠ 200 then
        (none, some ("API Unexpected status: " ++ toString status))
      else
        match body with
        | .malformed m => (none, some ("JSON decode failed: " ++ m))
        | .value relations => (some relations.Index, none)

/-- Behaviour of one scheduled fetch attempt as the retrying goroutine sees
it: how many milliseconds the round trip would take if allowed to run to
completion, and the `(collection, error)` pair the fetch function returns
then. -/
structure AttemptSpec (α : Type) where
  dur : Nat
  res : Option α × Option String
deriving DecidableEq, Repr

/-- What a retrying goroutine eventually sends: success (carrying the value
assigned to the global), the timeout error from the loop-top `ctx.Err()`
check, or the retry-exhaustion error built after the loop. -/
inductive TaskResult (α : Type) where
  | success (coll : Option α)
  | timedOut (msg : String)
  | exhausted (msg : String)
deriving DecidableEq, Repr

/-- Observable run of one retrying goroutine: its result, the start time of
every `time.Sleep(1 * time.Second)` backoff it performed, and whether the
shared 5-second deadline fired in the middle of some attempt (cancelling
that attempt's HTTP request). -/
structure TaskRun (α : Type) where
  result : TaskResult α
  sleepStarts : List Nat
  cutShort : Bool
deriving DecidableEq, Repr

def maxRetries : Nat := 2

/-- The 5-second per-goroutine context timeout, in milliseconds. -/
def fetchTimeoutMillis : Nat := 5000

/-- The fixed 1-second backoff between a failed attempt and the next. -/
def backoffMillis : Nat := 1000

/-- How Go's `fmt` verb `%v` renders an `error` value: `<nil>` for nil. -/
def goErrString : Option String → String
  | none => "<nil>"
  | some s => s

/-- The error sent when the loop-top `ctx.Err()` check fires:
`"%s timed out on attempt %d\n"`. -/
def goTimedOutMsg (name : String) (attempt : Nat) : String :=
  name ++ (" timed out on attempt " ++ (toString attempt ++ "\n"))

/-- The error built after the loop: `"%s failed after %d attempts: %v"`,
applied to the `err` variable declared before the loop. -/
def goExhaustedMsg (name : String) (mr : Nat) (outerErr : Option String) : String :=
  name ++ (" failed after " ++ (toString (mr + 1) ++ (" attempts: " ++ goErrString outerErr)))

/-- The retry loop each goroutine of `InitializeData` runs.  `deadline` is
the single `context.WithTimeout` deadline taken once before the loop; `now`
is the elapsed time; `fuel` counts the loop iterations still permitted
(`fuel = mr + 1 - attempt`, so `fuel = 0` is the loop exiting and building
the exhaustion error).  `outerErr` models the `var err error` declared
before the loop: the short variable declaration `artists, err := ...`
inside the loop creates a fresh shadowing `err`, so `outerErr` is never
updated.  An attempt started at `now` completes with its own result when it
fits before the deadline; otherwise the context cancels its HTTP request at
the deadline and the fetch returns an error there (`cutShort`). -/
def retryLoop (name : String) (oracle : Nat → AttemptSpec α) (deadline mr : Nat) :
    Nat → Nat → Nat → List Nat → Bool → Option String → TaskRun α
  | 0, _, _, sleeps, cut, outerErr =>
      ⟨.exhausted (goExhaustedMsg name mr outerErr), sleeps, cut⟩
  | fuel + 1, attempt, now, sleeps, cut, outerErr =>
      if deadline ≤ now then
        ⟨.timedOut (goTimedOutMsg name attempt), sleeps, cut⟩
      else if now + (oracle attempt).dur ≤ deadline then
        if (oracle attempt).res.2 = none then
          ⟨.success (oracle attempt).res.1, sleeps, cut⟩
        else if attempt < mr then
          retryLoop name oracle deadline mr fuel (attempt + 1)
            (now + (oracle attempt).dur + backoffMillis)
            (sleeps ++ [now + (oracle attempt).dur]) cut outerErr
        else
          retryLoop name oracle deadline mr fuel (attempt + 1)
            (now + (oracle attempt).dur) sleeps cut outerErr
      else
        if attempt < mr then
          retryLoop name oracle deadline mr fuel (attempt + 1)
            (deadline + backoffMillis) (sleeps ++ [deadline]) true outerErr
        else
          retryLoop name oracle deadline mr fuel (attempt + 1) deadline sleeps true outerErr

/-- Upstream environment: for each resource kind, the behaviour (duration
and HTTP outcome) of its attempt number `i`. -/
structure Upstream where
  artists : Nat → Nat × HttpOutcome (List Artists)
  locations : Nat → Nat × HttpOutcome LocationsIndex
  dates : Nat → Nat × HttpOutcome DatesIndex
  relations : Nat → Nat × HttpOutcome RelationIndex

def artistsAttempt (u : Upstream) (i : Nat) : AttemptSpec (List Artists) :=
  ⟨(u.artists i).1, FetchArtistsWithContext (u.artists i).2⟩

def locationsAttempt (u : Upstream) (i : Nat) : AttemptSpec (List Locations) :=
  ⟨(u.locations i).1, FetchLocationsWithContext (u.locations i).2⟩

def datesAttempt (u : Upstream) (i : Nat) : AttemptSpec (List Dates) :=
  ⟨(u.dates i).1, FetchDatesWithContext (u.dates i).2⟩

def relationsAttempt (u : Upstream) (i : Nat) : AttemptSpec (List Relations) :=
  ⟨(u.relations i).1, FetchRelationsWithContext (u.relations i).2⟩

/-- The `// Fetch Artists` goroutine of `InitializeData`. -/
def artistsTask (u : Upstream) : TaskRun (List Artists) :=
  retryLoop "FetchArtists" (artistsAttempt u) fetchTimeoutMillis maxRetries
    (maxRetries + 1) 0 0 [] false none

/-- The `// Fetch Locations` goroutine. -/
def locationsTask (u : Upstream) : TaskRun (List Locations) :=
  retryLoop "FetchLocations" (locationsAttempt u) fetchTimeoutMillis maxRetries
    (maxRetries + 1) 0 0 [] false none

/-- The `// Fetch Dates` goroutine. -/
def datesTask (u : Upstream) : TaskRun (List Dates) :=
  retryLoop "FetchDates" (datesAttempt u) fetchTimeoutMillis maxRetries
    (maxRetries + 1) 0 0 [] false none

/-- The `// Fetch Relations` goroutine. -/
def relationsTask (u : Upstream) : TaskRun (List Relations) :=
  retryLoop "FetchRelations" (relationsAttempt u) fetchTimeoutMillis maxRetries
    (maxRetries + 1) 0 0 [] false none

/-- What a goroutine sends on the channel `ch`: `nil` on success, the
timeout or exhaustion error otherwise. -/
def taskError (run : TaskRun α) : Option String :=
  match run.result with
  | .success _ => none
  | .timedOut m => some m
  | .exhausted m => some m

/-- The global slice for a kind after its goroutine ran: assigned exactly
when the fetch attempt returned a nil error (`.success`; a nil slice
becomes the empty one), left untouched otherwise. -/
def taskColl (old : List β) (run : TaskRun (List β)) : List β :=
  match run.result with
  | .success (some c) => c
  | .success none => []
  | .timedOut _ => old
  | .exhausted _ => old

/-- The package-level slices `All_Artists`, `All_Locations`, `All_Dates`,
`All_Relations` gathered into one store value. -/
structure CatalogStore where
  All_Artists : List Artists
  All_Locations : List Locations
  All_Dates : List Dates
  All_Relations : List Relations
deriving DecidableEq, Repr

/-- The four values the goroutines put on the buffered channel `ch`, in
kind-declaration order. -/
def channelMsgs (u : Upstream) : List (Option String) :=
  [taskError (artistsTask u), taskError (locationsTask u),
   taskError (datesTask u), taskError (relationsTask u)]

/-- `InitializeData`: run the four goroutines, apply each success to its
global slice, drain the channel appending every non-nil error, and return
`nil` when no error was collected.  `arrival` abstracts the scheduler's
nondeterministic channel-arrival order: the collector sees some permutation
of `channelMsgs u` (theorems assume `arrival (channelMsgs u)` is a
permutation of it). -/
def InitializeData (u : Upstream) (store : CatalogStore)
    (arrival : List (Option String) → List (Option String)) :
    CatalogStore × Option (List String) :=
  ({ All_Artists := taskColl store.All_Artists (artistsTask u)
     All_Locations := taskColl store.All_Locations (locationsTask u)
     All_Dates := taskColl store.All_Dates (datesTask u)
     All_Relations := taskColl store.All_Relations (relationsTask u) },
   let errors := (arrival (channelMsgs u)).filterMap id
   if 0 < errors.length then some errors else none)

/-- `api.LoadingStatus`. -/
structure LoadingStatus where
  IsLoading : Bool
  IsLoaded : Bool
  HasFailed : Bool
deriving DecidableEq, Repr

/-- `SetLoadingStatus` (the mutex only guards the write; the stored value
is this). -/
def SetLoadingStatus (loading loaded failed : Bool) : LoadingStatus :=
  { IsLoading := loading, IsLoaded := loaded, HasFailed := failed }

/-- `numFailures u` counts the goroutines that sent a non-nil error. -/
def numFailures (u : Upstream) : Nat :=
  ((channelMsgs u).filterMap id).length

/-- One scheduler-driven Orchestrator invocation inside `RefreshData`:
after the branch's sleep, the scheduler sets Loading, calls
`InitializeData`, and sets the status to Failed when the returned error
slice is non-nil and to Loaded when it is nil.  Both the `IsLoaded` and the
`HasFailed` branch of the loop run this same body. -/
def refreshInvocation (u : Upstream) (store : CatalogStore)
    (arrival : List (Option String) → List (Option String)) :
    LoadingStatus × CatalogStore :=
  match InitializeData u store arrival with
  | (store', some _) => (SetLoadingStatus false false true, store')
  | (store', none) => (SetLoadingStatus false true false, store')

/-- Modelled from the spec, for comparison with `retryLoop` (§4.2 of the
spec): "repeatedly invoke the Resource Fetcher under a fresh per-attempt
deadline (5 seconds) until one attempt succeeds or attempts are exhausted".
Each attempt gets its own `perAttempt` budget, so no shared clock is
threaded: an attempt is cancelled only by its own deadline. -/
def specFreshDeadlineLoop (name : String) (oracle : Nat → AttemptSpec α)
    (perAttempt mr : Nat) : Nat → Nat → TaskResult α
  | 0, _ => .exhausted (goExhaustedMsg name mr none)
  | fuel + 1, attempt =>
      if (oracle attempt).dur ≤ perAttempt ∧ (oracle attempt).res.2 = none then
        .success (oracle attempt).res.1
      else
        specFreshDeadlineLoop name oracle perAttempt mr fuel (attempt + 1)

/-- Every Artists attempt's fetch returns a non-nil error (the endpoint
permanently fails). -/
def ArtistsAlwaysFail (u : Upstream) : Prop :=
  ∀ i, (FetchArtistsWithContext (u.artists i).2).2 ≠ none

def LocationsAlwaysFail (u : Upstream) : Prop :=
  ∀ i, (FetchLocationsWithContext (u.locations i).2).2 ≠ none

def DatesAlwaysFail (u : Upstream) : Prop :=
  ∀ i, (FetchDatesWithContext (u.dates i).2).2 ≠ none

def RelationsAlwaysFail (u : Upstream) : Prop :=
  ∀ i, (FetchRelationsWithContext (u.relations i).2).2 ≠ none

/-- The first Artists attempt answers 200 instantly with a body decoding
to `a` (and symmetrically for the other three kinds below). -/
def ArtistsHealthy (u : Upstream) (a : List Artists) : Prop :=
  u.artists 0 = (0, .response 200 (.value a))

def LocationsHealthy (u : Upstream) (l : LocationsIndex) : Prop :=
  u.locations 0 = (0, .response 200 (.value l))

def DatesHealthy (u : Upstream) (d : DatesIndex) : Prop :=
  u.dates 0 = (0, .response 200 (.value d))

def RelationsHealthy (u : Upstream) (r : RelationIndex) : Prop :=
  u.relations 0 = (0, .response 200 (.value r))
/-- Concrete records and environments used by the witnesses and
counterexamples. -/
def sampleArtist : Artists :=
  ⟨1, "img", "Queen", ["Freddie Mercury"], 1970, "1973-07-13", "loc", "dat", "rel"⟩

def sampleLocationsIndex : LocationsIndex := ⟨[⟨1, ["usa-new_york"], "dates"⟩]⟩

def sampleDatesIndex : DatesIndex := ⟨[⟨1, ["23-08-2019"]⟩]⟩

def sampleRelationIndex : RelationIndex := ⟨[⟨1, [("usa-new_york", ["23-08-2019"])], []⟩]⟩

def healthyUpstream : Upstream :=
  { artists := fun _ => (0, .response 200 (.value [sampleArtist]))
    locations := fun _ => (0, .response 200 (.value sampleLocationsIndex))
    dates := fun _ => (0, .response 200 (.value sampleDatesIndex))
    relations := fun _ => (0, .response 200 (.value sampleRelationIndex)) }

def failUpstream : Upstream :=
  { artists := fun _ => (0, .transportError "connection refused")
    locations := fun _ => (0, .transportError "connection refused")
    dates := fun _ => (0, .transportError "connection refused")
    relations := fun _ => (0, .transportError "connection refused") }

def partialUpstream : Upstream :=
  { healthyUpstream with artists := fun _ => (0, .transportError "boom") }

def emptyLocUpstream : Upstream :=
  { healthyUpstream with locations := fun _ => (0, .response 200 (.value ⟨[]⟩)) }

def store0 : CatalogStore := ⟨[], [], [], []⟩

def popLocStore : CatalogStore := ⟨[], sampleLocationsIndex.Index, [], []⟩

/-- Attempt 0 takes 4.5 s and fails; later attempts would succeed in
0.1 s.  Exhibits the shared 5-second budget (C1). -/
def sharedBudgetOracle : Nat → AttemptSpec (List Artists) := fun i =>
  if i = 0 then ⟨4500, (none, some "boom")⟩ else ⟨100, (some [sampleArtist], none)⟩

/-- Every attempt would take 6 s, so the shared deadline fires mid-attempt
(C9). -/
def midAttemptCutOracle : Nat → AttemptSpec (List Artists) := fun _ =>
  ⟨6000, (none, some "context deadline exceeded")⟩

/-- Attempts 0 and 1 fail instantly; attempt 2 runs into the deadline
(C9). -/
def finalAttemptCutOracle : Nat → AttemptSpec (List Artists) := fun i =>
  if i ≤ 1 then ⟨0, (none, some "boom")⟩ else ⟨10000, (none, some "context deadline exceeded")⟩

/-- Attempt 0 fails instantly, attempt 1 succeeds instantly (C7). -/
def c7Oracle : Nat → AttemptSpec (List Artists) := fun i =>
  if i = 0 then ⟨0, (none, some "boom")⟩ else ⟨0, (some [sampleArtist], none)⟩
theorem retryLoop_step_timeout {α : Type} (name : String) (oracle : Nat → AttemptSpec α)
    (deadline mr fuel attempt now : Nat) (sleeps : List Nat) (cut : Bool) (oe : Option String)
    (h : deadline ≤ now) :
    retryLoop name oracle deadline mr (fuel + 1) attempt now sleeps cut oe
      = ⟨.timedOut (goTimedOutMsg name attempt), sleeps, cut⟩ := by
  simp [retryLoop, h]

theorem retryLoop_step_success {α : Type} (name : String) (oracle : Nat → AttemptSpec α)
    (deadline mr fuel attempt now : Nat) (sleeps : List Nat) (cut : Bool) (oe : Option String)
    (h1 : ¬ deadline ≤ now) (h2 : now + (oracle attempt).dur ≤ deadline)
    (h3 : (oracle attempt).res.2 = none) :
    retryLoop name oracle deadline mr (fuel + 1) attempt now sleeps cut oe
      = ⟨.success (oracle attempt).res.1, sleeps, cut⟩ := by
  simp [retryLoop, h1, h2, h3]

theorem retryLoop_step_fail_sleep {α : Type} (name : String) (oracle : Nat → AttemptSpec α)
    (deadline mr fuel attempt now : Nat) (sleeps : List Nat) (cut : Bool) (oe : Option String)
    (h1 : ¬ deadline ≤ now) (h2 : now + (oracle attempt).dur ≤ deadline)
    (h3 : (oracle attempt).res.2 ≠ none) (h4 : attempt < mr) :
    retryLoop name oracle deadline mr (fuel + 1) attempt now sleeps cut oe
      = retryLoop name oracle deadline mr fuel (attempt + 1)
          (now + (oracle attempt).dur + backoffMillis)
          (sleeps ++ [now + (oracle attempt).dur]) cut oe := by
  simp [retryLoop, h1, h2, h3, h4]

theorem retryLoop_step_fail_last {α : Type} (name : String) (oracle : Nat → AttemptSpec α)
    (deadline mr fuel attempt now : Nat) (sleeps : List Nat) (cut : Bool) (oe : Option String)
    (h1 : ¬ deadline ≤ now) (h2 : now + (oracle attempt).dur ≤ deadline)
    (h3 : (oracle attempt).res.2 ≠ none) (h4 : ¬ attempt < mr) :
    retryLoop name oracle deadline mr (fuel + 1) attempt now sleeps cut oe
      = retryLoop name oracle deadline mr fuel (attempt + 1)
          (now + (oracle attempt).dur) sleeps cut oe := by
  simp [retryLoop, h1, h2, h3, h4]

theorem retryLoop_step_cut_sleep {α : Type} (name : String) (oracle : Nat → AttemptSpec α)
    (deadline mr fuel attempt now : Nat) (sleeps : List Nat) (cut : Bool) (oe : Option String)
    (h1 : ¬ deadline ≤ now) (h2 : ¬ now + (oracle attempt).dur ≤ deadline)
    (h4 : attempt < mr) :
    retryLoop name oracle deadline mr (fuel + 1) attempt now sleeps cut oe
      = retryLoop name oracle deadline mr fuel (attempt + 1)
          (deadline + backoffMillis) (sleeps ++ [deadline]) true oe := by
  simp [retryLoop, h1, h2, h4]

theorem retryLoop_allFail {α : Type} (name : String) (oracle : Nat → AttemptSpec α)
    (deadline mr : Nat) (h : ∀ i, (oracle i).res.2 ≠ none) :
    ∀ (fuel attempt now : Nat) (sleeps : List Nat) (cut : Bool) (oe : Option String),
      ∃ rest sl c2,
        retryLoop name oracle deadline mr fuel attempt now sleeps cut oe
            = ⟨.timedOut (name ++ rest), sl, c2⟩ ∨
        retryLoop name oracle deadline mr fuel attempt now sleeps cut oe
            = ⟨.exhausted (name ++ rest), sl, c2⟩ := by
  intro fuel
  induction fuel with
  | zero =>
      intro attempt now sleeps cut oe
      exact ⟨_, sleeps, cut, Or.inr rfl⟩
  | succ n ih =>
      intro attempt now sleeps cut oe
      by_cases h1 : deadline ≤ now
      · exact ⟨_, sleeps, cut, Or.inl (retryLoop_step_timeout _ _ _ _ _ _ _ _ _ _ h1)⟩
      · by_cases h2 : now + (oracle attempt).dur ≤ deadline
        · by_cases h4 : attempt < mr
          · obtain ⟨rest, sl, c2, hor⟩ := ih (attempt + 1)
              (now + (oracle attempt).dur + backoffMillis)
              (sleeps ++ [now + (oracle attempt).dur]) cut oe
            refine ⟨rest, sl, c2, ?_⟩
            rw [retryLoop_step_fail_sleep _ _ _ _ _ _ _ _ _ _ h1 h2 (h attempt) h4]
            exact hor
          · obtain ⟨rest, sl, c2, hor⟩ := ih (attempt + 1)
              (now + (oracle attempt).dur) sleeps cut oe
            refine ⟨rest, sl, c2, ?_⟩
            rw [retryLoop_step_fail_last _ _ _ _ _ _ _ _ _ _ h1 h2 (h attempt) h4]
            exact hor
        · by_cases h4 : attempt < mr
          · obtain ⟨rest, sl, c2, hor⟩ := ih (attempt + 1)
              (deadline + backoffMillis) (sleeps ++ [deadline]) true oe
            refine ⟨rest, sl, c2, ?_⟩
            rw [retryLoop_step_cut_sleep _ _ _ _ _ _ _ _ _ _ h1 h2 h4]
            exact hor
          · obtain ⟨rest, sl, c2, hor⟩ := ih (attempt + 1) deadline sleeps true oe
            refine ⟨rest, sl, c2, ?_⟩
            have hstep : retryLoop name oracle deadline mr (n + 1) attempt now sleeps cut oe
                = retryLoop name oracle deadline mr n (attempt + 1) deadline sleeps true oe := by
              simp [retryLoop, h1, h2, h4]
            rw [hstep]
            exact hor

theorem artistsTask_fail (u : Upstream) (h : ArtistsAlwaysFail u) :
    ∃ rest, taskError (artistsTask u) = some ("FetchArtists" ++ rest) ∧
      ∀ old, taskColl old (artistsTask u) = old := by
  obtain ⟨rest, sl, c2, hor | hor⟩ :=
    retryLoop_allFail "FetchArtists" (artistsAttempt u) fetchTimeoutMillis maxRetries
      (fun i => h i) (maxRetries + 1) 0 0 [] false none
  · exact ⟨rest, by unfold artistsTask; rw [hor]; rfl,
      fun old => by unfold taskColl artistsTask; rw [hor]⟩
  · exact ⟨rest, by unfold artistsTask; rw [hor]; rfl,
      fun old => by unfold taskColl artistsTask; rw [hor]⟩

theorem artistsTask_healthy (u : Upstream) (a : List Artists) (h : ArtistsHealthy u a) :
    artistsTask u = ⟨.success (some a), [], false⟩ := by
  have ha : artistsAttempt u 0 = ⟨0, (some a, none)⟩ := by
    unfold artistsAttempt ArtistsHealthy at *
    rw [h]
    rfl
  unfold artistsTask
  rw [retryLoop_step_success "FetchArtists" (artistsAttempt u) fetchTimeoutMillis
    maxRetries maxRetries 0 0 [] false none (by decide)
    (by rw [ha]; norm_num [fetchTimeoutMillis]) (by rw [ha])]
  rw [ha]

theorem locationsTask_fail (u : Upstream) (h : LocationsAlwaysFail u) :
    ∃ rest, taskError (locationsTask u) = some ("FetchLocations" ++ rest) ∧
      ∀ old, taskColl old (locationsTask u) = old := by
  obtain ⟨rest, sl, c2, hor | hor⟩ :=
    retryLoop_allFail "FetchLocations" (locationsAttempt u) fetchTimeoutMillis maxRetries
      (fun i => h i) (maxRetries + 1) 0 0 [] false none
  · exact ⟨rest, by unfold locationsTask; rw [hor]; rfl,
      fun old => by unfold taskColl locationsTask; rw [hor]⟩
  · exact ⟨rest, by unfold locationsTask; rw [hor]; rfl,
      fun old => by unfold taskColl locationsTask; rw [hor]⟩

theorem locationsTask_healthy (u : Upstream) (a : LocationsIndex) (h : LocationsHealthy u a) :
    locationsTask u = ⟨.success (some a.Index), [], false⟩ := by
  have ha : locationsAttempt u 0 = ⟨0, (some a.Index, none)⟩ := by
    unfold locationsAttempt LocationsHealthy at *
    rw [h]
    rfl
  unfold locationsTask
  rw [retryLoop_step_success "FetchLocations" (locationsAttempt u) fetchTimeoutMillis
    maxRetries maxRetries 0 0 [] false none (by decide)
    (by rw [ha]; norm_num [fetchTimeoutMillis]) (by rw [ha])]
  rw [ha]

theorem datesTask_fail (u : Upstream) (h : DatesAlwaysFail u) :
    ∃ rest, taskError (datesTask u) = some ("FetchDates" ++ rest) ∧
      ∀ old, taskColl old (datesTask u) = old := by
  obtain ⟨rest, sl, c2, hor | hor⟩ :=
    retryLoop_allFail "FetchDates" (datesAttempt u) fetchTimeoutMillis maxRetries
      (fun i => h i) (maxRetries + 1) 0 0 [] false none
  · exact ⟨rest, by unfold datesTask; rw [hor]; rfl,
      fun old => by unfold taskColl datesTask; rw [hor]⟩
  · exact ⟨rest, by unfold datesTask; rw [hor]; rfl,
      fun old => by unfold taskColl datesTask; rw [hor]⟩

theorem datesTask_healthy (u : Upstream) (a : DatesIndex) (h : DatesHealthy u a) :
    datesTask u = ⟨.success (some a.Index), [], false⟩ := by
  have ha : datesAttempt u 0 = ⟨0, (some a.Index, none)⟩ := by
    unfold datesAttempt DatesHealthy at *
    rw [h]
    rfl
  unfold datesTask
  rw [retryLoop_step_success "FetchDates" (datesAttempt u) fetchTimeoutMillis
    maxRetries maxRetries 0 0 [] false none (by decide)
    (by rw [ha]; norm_num [fetchTimeoutMillis]) (by rw [ha])]
  rw [ha]

theorem relationsTask_fail (u : Upstream) (h : RelationsAlwaysFail u) :
    ∃ rest, taskError (relationsTask u) = some ("FetchRelations" ++ rest) ∧
      ∀ old, taskColl old (relationsTask u) = old := by
  obtain ⟨rest, sl, c2, hor | hor⟩ :=
    retryLoop_allFail "FetchRelations" (relationsAttempt u) fetchTimeoutMillis maxRetries
      (fun i => h i) (maxRetries + 1) 0 0 [] false none
  · exact ⟨rest, by unfold relationsTask; rw [hor]; rfl,
      fun old => by unfold taskColl relationsTask; rw [hor]⟩
  · exact ⟨rest, by unfold relationsTask; rw [hor]; rfl,
      fun old => by unfold taskColl relationsTask; rw [hor]⟩

theorem relationsTask_healthy (u : Upstream) (a : RelationIndex) (h : RelationsHealthy u a) :
    relationsTask u = ⟨.success (some a.Index), [], false⟩ := by
  have ha : relationsAttempt u 0 = ⟨0, (some a.Index, none)⟩ := by
    unfold relationsAttempt RelationsHealthy at *
    rw [h]
    rfl
  unfold relationsTask
  rw [retryLoop_step_success "FetchRelations" (relationsAttempt u) fetchTimeoutMillis
    maxRetries maxRetries 0 0 [] false none (by decide)
    (by rw [ha]; norm_num [fetchTimeoutMillis]) (by rw [ha])]
  rw [ha]

theorem initializeData_fst (u : Upstream) (store : CatalogStore)
    (arrival : List (Option String) → List (Option String)) :
    (InitializeData u store arrival).1
      = { All_Artists := taskColl store.All_Artists (artistsTask u)
          All_Locations := taskColl store.All_Locations (locationsTask u)
          All_Dates := taskColl store.All_Dates (datesTask u)
          All_Relations := taskColl store.All_Relations (relationsTask u) } := rfl

theorem initializeData_snd (u : Upstream) (store : CatalogStore)
    (arrival : List (Option String) → List (Option String)) :
    (InitializeData u store arrival).2
      = (if 0 < ((arrival (channelMsgs u)).filterMap id).length
         then some ((arrival (channelMsgs u)).filterMap id) else none) := rfl

theorem refreshInvocation_status (u : Upstream) (store : CatalogStore)
    (arrival : List (Option String) → List (Option String)) :
    (refreshInvocation u store arrival).1
      = (if 0 < ((arrival (channelMsgs u)).filterMap id).length
         then SetLoadingStatus false false true else SetLoadingStatus false true false) := by
  unfold refreshInvocation InitializeData
  by_cases hp : 0 < ((arrival (channelMsgs u)).filterMap id).length
  · simp [hp]
  · simp [hp]

theorem fetchArtists_fail_no_coll (o : HttpOutcome (List Artists))
    (h : (FetchArtistsWithContext o).2 ≠ none) : (FetchArtistsWithContext o).1 = none := by
  cases o with
  | reqError m => rfl
  | transportError m => rfl
  | response st b =>
      simp only [FetchArtistsWithContext] at h ⊢
      by_cases hst : st ≠ 200
      · rw [if_pos hst]
      · rw [if_neg hst]
        rw [if_neg hst] at h
        cases b with
        | malformed m => rfl
        | value a => exact absurd rfl h

theorem fetchLocations_fail_no_coll (o : HttpOutcome LocationsIndex)
    (h : (FetchLocationsWithContext o).2 ≠ none) : (FetchLocationsWithContext o).1 = none := by
  cases o with
  | reqError m => rfl
  | transportError m => rfl
  | response st b =>
      simp only [FetchLocationsWithContext] at h ⊢
      by_cases hst : st ≠ 200
      · rw [if_pos hst]
      · rw [if_neg hst]
        rw [if_neg hst] at h
        cases b with
        | malformed m => rfl
        | value a => exact absurd rfl h

theorem fetchDates_fail_no_coll (o : HttpOutcome DatesIndex)
    (h : (FetchDatesWithContext o).2 ≠ none) : (FetchDatesWithContext o).1 = none := by
  cases o with
  | reqError m => rfl
  | transportError m => rfl
  | response st b =>
      simp only [FetchDatesWithContext] at h ⊢
      by_cases hst : st ≠ 200
      · rw [if_pos hst]
      · rw [if_neg hst]
        rw [if_neg hst] at h
        cases b with
        | malformed m => rfl
        | value a => exact absurd rfl h

theorem fetchRelations_fail_no_coll (o : HttpOutcome RelationIndex)
    (h : (FetchRelationsWithContext o).2 ≠ none) : (FetchRelationsWithContext o).1 = none := by
  cases o with
  | reqError m => rfl
  | transportError m => rfl
  | response st b =>
      simp only [FetchRelationsWithContext] at h ⊢
      by_cases hst : st ≠ 200
      · rw [if_pos hst]
      · rw [if_neg hst]
        rw [if_neg hst] at h
        cases b with
        | malformed m => rfl
        | value a => exact absurd rfl h

/-- C1, amended.  The claim said each of the up-to-3 attempts runs under its
own fresh 5-second deadline.  In the code the `context.WithTimeout` is created
once, before the loop, so the budget is shared: whenever attempt 0 consumes at
least 4 seconds and fails, the 1-second backoff exhausts the shared budget and
attempt 1 is aborted as a timeout without the fetcher ever being invoked —
the conclusion holds for every behaviour of attempts 1 and 2, which shows they
are never consulted. -/
theorem c1_shared_deadline_timeout {α : Type} (name : String) (oracle : Nat → AttemptSpec α)
    (h1 : 4000 ≤ (oracle 0).dur) (h2 : (oracle 0).dur ≤ fetchTimeoutMillis)
    (h3 : (oracle 0).res.2 ≠ none) :
    retryLoop name oracle fetchTimeoutMillis maxRetries (maxRetries + 1) 0 0 [] false none
      = ⟨.timedOut (goTimedOutMsg name 1), [(oracle 0).dur], false⟩ := by
  have hgoal : retryLoop name oracle fetchTimeoutMillis maxRetries (maxRetries + 1) 0 0 [] false none
      = retryLoop name oracle 5000 2 3 0 0 [] false none := rfl
  rw [hgoal]
  have h2' : (oracle 0).dur ≤ 5000 := h2
  have s1 := retryLoop_step_fail_sleep name oracle 5000 2 2 0 0 [] false none
    (by decide) (by omega) h3 (by decide)
  norm_num [backoffMillis] at s1
  have s2 := retryLoop_step_timeout name oracle 5000 2 1 1
    ((oracle 0).dur + 1000) [(oracle 0).dur] false none (by omega)
  norm_num at s2
  rw [s1]
  exact s2

/-- C1 witness: the amended theorem applied to a concrete oracle whose first
attempt takes 4.5 seconds and fails. -/
theorem c1_shared_deadline_timeout_witness :
    retryLoop "FetchArtists" sharedBudgetOracle fetchTimeoutMillis maxRetries
        (maxRetries + 1) 0 0 [] false none
      = ⟨.timedOut (goTimedOutMsg "FetchArtists" 1), [(sharedBudgetOracle 0).dur], false⟩ :=
  c1_shared_deadline_timeout "FetchArtists" sharedBudgetOracle (by norm_num [sharedBudgetOracle])
    (by norm_num [sharedBudgetOracle, fetchTimeoutMillis]) (by simp [sharedBudgetOracle])
/-- C1 counterexample.  Under `sharedBudgetOracle` (attempt 0 takes 4.5 s and
fails, attempt 1 takes 0.1 s and would succeed) the code's loop reports a
timeout on attempt 1 even though attempt 1 fits comfortably inside its own
5-second budget; the spec-worded fresh-deadline loop succeeds on the same
oracle.  So attempts do not get fresh per-attempt deadlines. -/
theorem c1_fresh_deadline_counterexample :
    (retryLoop "FetchArtists" sharedBudgetOracle fetchTimeoutMillis maxRetries
        (maxRetries + 1) 0 0 [] false none).result
      = .timedOut "FetchArtists timed out on attempt 1\n" ∧
    (sharedBudgetOracle 1).dur ≤ fetchTimeoutMillis ∧
    (sharedBudgetOracle 1).res.2 = none ∧
    specFreshDeadlineLoop "FetchArtists" sharedBudgetOracle fetchTimeoutMillis maxRetries
        (maxRetries + 1) 0 = .success (some [sampleArtist]) :=
  ⟨rfl, by decide, rfl, rfl⟩
/-- C2, code bug.  When all three Artists attempts fail with a transport
error, the aggregate error does name the fetch operation and says "failed
after 3 attempts", but it wraps `<nil>` rather than the last per-attempt
error: the short variable declaration `artists, err := ...` inside the loop
shadows the `var err error` declared before it, so the outer `err` that the
final `fmt.Errorf` formats is always nil. -/
theorem c2_exhaustion_message_wraps_nil :
    taskError (artistsTask failUpstream)
      = some "FetchArtists failed after 3 attempts: <nil>" ∧
    (FetchArtistsWithContext (failUpstream.artists 2).2).2
      = some ("Failed to fetch from " ++ (ARTISTS_API ++ (" with error: connection refused"))) ∧
    taskError (artistsTask failUpstream)
      ≠ some ("FetchArtists failed after 3 attempts: "
          ++ ("Failed to fetch from " ++ (ARTISTS_API ++ (" with error: connection refused")))) :=
  ⟨rfl, rfl, by decide⟩
/-- C3.  After a scheduler-driven Orchestrator invocation the status is
Loaded exactly when `InitializeData` collected zero aggregate errors and
Failed exactly when it collected at least one, for every arrival order of the
channel messages. -/
theorem c3_status_iff_aggregate_errors (u : Upstream) (store : CatalogStore)
    (arrival : List (Option String) → List (Option String))
    (harr : (arrival (channelMsgs u)).Perm (channelMsgs u)) :
    ((refreshInvocation u store arrival).1 = SetLoadingStatus false true false
        ↔ numFailures u = 0) ∧
    ((refreshInvocation u store arrival).1 = SetLoadingStatus false false true
        ↔ 1 ≤ numFailures u) := by
  have hlen : ((arrival (channelMsgs u)).filterMap id).length = numFailures u :=
    (harr.filterMap id).length_eq
  rw [refreshInvocation_status, hlen]
  rcases Nat.eq_zero_or_pos (numFailures u) with h0 | hpos
  · rw [h0]
    norm_num [SetLoadingStatus]
  · rw [if_pos hpos]
    norm_num [SetLoadingStatus]
    omega

/-- C3 witness: a partial failure (Artists failing, the other three kinds
healthy, hence exactly one aggregate error) still sets the status to Failed. -/
theorem c3_status_iff_aggregate_errors_witness :
    (refreshInvocation partialUpstream store0 id).1 = SetLoadingStatus false false true ∧
    numFailures partialUpstream = 1 :=
  ⟨(c3_status_iff_aggregate_errors partialUpstream store0 id (List.Perm.refl _)).2.mpr (by decide), by decide⟩
/-- C4.  When every attempt of every kind fails, `InitializeData` returns
exactly four errors and leaves all four `CatalogStore` collections at their
pre-call values, and calling it a second time under the same all-failing
transport still leaves the store untouched. -/
theorem c4_total_failure_frame (u : Upstream) (store : CatalogStore)
    (arrival : List (Option String) → List (Option String))
    (harr : (arrival (channelMsgs u)).Perm (channelMsgs u))
    (hA : ArtistsAlwaysFail u) (hL : LocationsAlwaysFail u)
    (hD : DatesAlwaysFail u) (hR : RelationsAlwaysFail u) :
    (∃ l, (InitializeData u store arrival).2 = some l ∧ l.length = 4) ∧
    (InitializeData u store arrival).1 = store ∧
    (InitializeData u ((InitializeData u store arrival).1) arrival).1 = store := by
  obtain ⟨r1, he1, hc1⟩ := artistsTask_fail u hA
  obtain ⟨r2, he2, hc2⟩ := locationsTask_fail u hL
  obtain ⟨r3, he3, hc3⟩ := datesTask_fail u hD
  obtain ⟨r4, he4, hc4⟩ := relationsTask_fail u hR
  have hch : channelMsgs u
      = [some ("FetchArtists" ++ r1), some ("FetchLocations" ++ r2),
         some ("FetchDates" ++ r3), some ("FetchRelations" ++ r4)] := by
    unfold channelMsgs
    rw [he1, he2, he3, he4]
  have hlen : ((arrival (channelMsgs u)).filterMap id).length = 4 := by
    have h4 : ((channelMsgs u).filterMap id).length = 4 := by
      rw [hch]
      rfl
    exact (harr.filterMap id).length_eq.trans h4
  have hstore : (InitializeData u store arrival).1 = store := by
    rw [initializeData_fst, hc1, hc2, hc3, hc4]
  refine ⟨⟨(arrival (channelMsgs u)).filterMap id, ?_, hlen⟩, hstore, ?_⟩
  · rw [initializeData_snd, if_pos (by rw [hlen]; norm_num)]
  · rw [hstore]
    exact hstore

/-- C4 witness: all four endpoints refusing connections, empty initial
store, identity arrival order. -/
theorem c4_total_failure_frame_witness :
    (∃ l, (InitializeData failUpstream store0 id).2 = some l ∧ l.length = 4) ∧
    (InitializeData failUpstream store0 id).1 = store0 ∧
    (InitializeData failUpstream ((InitializeData failUpstream store0 id).1) id).1 = store0 :=
  c4_total_failure_frame failUpstream store0 id (List.Perm.refl _)
    (fun i => by simp [failUpstream, FetchArtistsWithContext])
    (fun i => by simp [failUpstream, FetchLocationsWithContext])
    (fun i => by simp [failUpstream, FetchDatesWithContext])
    (fun i => by simp [failUpstream, FetchRelationsWithContext])
/-- C5.  For each of the four kinds: when that kind permanently fails and
the other three succeed on their first attempt, `InitializeData` returns
exactly one error, whose message begins with the failing kind's fetch
operation name, while the other three collections are replaced with the
fetched data and the failing kind's collection keeps its pre-call value. -/
theorem c5_single_failure_isolation (u : Upstream) (store : CatalogStore)
    (arrival : List (Option String) → List (Option String))
    (harr : (arrival (channelMsgs u)).Perm (channelMsgs u)) :
    (∀ (l : LocationsIndex) (d : DatesIndex) (r : RelationIndex),
      ArtistsAlwaysFail u → LocationsHealthy u l → DatesHealthy u d → RelationsHealthy u r →
      ∃ rest, (InitializeData u store arrival).2 = some ["FetchArtists" ++ rest] ∧
        (InitializeData u store arrival).1
          = { All_Artists := store.All_Artists, All_Locations := l.Index,
              All_Dates := d.Index, All_Relations := r.Index }) ∧
    (∀ (a : List Artists) (d : DatesIndex) (r : RelationIndex),
      LocationsAlwaysFail u → ArtistsHealthy u a → DatesHealthy u d → RelationsHealthy u r →
      ∃ rest, (InitializeData u store arrival).2 = some ["FetchLocations" ++ rest] ∧
        (InitializeData u store arrival).1
          = { All_Artists := a, All_Locations := store.All_Locations,
              All_Dates := d.Index, All_Relations := r.Index }) ∧
    (∀ (a : List Artists) (l : LocationsIndex) (r : RelationIndex),
      DatesAlwaysFail u → ArtistsHealthy u a → LocationsHealthy u l → RelationsHealthy u r →
      ∃ rest, (InitializeData u store arrival).2 = some ["FetchDates" ++ rest] ∧
        (InitializeData u store arrival).1
          = { All_Artists := a, All_Locations := l.Index,
              All_Dates := store.All_Dates, All_Relations := r.Index }) ∧
    (∀ (a : List Artists) (l : LocationsIndex) (d : DatesIndex),
      RelationsAlwaysFail u → ArtistsHealthy u a → LocationsHealthy u l → DatesHealthy u d →
      ∃ rest, (InitializeData u store arrival).2 = some ["FetchRelations" ++ rest] ∧
        (InitializeData u store arrival).1
          = { All_Artists := a, All_Locations := l.Index,
              All_Dates := d.Index, All_Relations := store.All_Relations }) := by
  refine ⟨?_, ?_, ?_, ?_⟩
  · intro l d r hF h2 h3 h4
    obtain ⟨rest, he, hc⟩ := artistsTask_fail u hF
    have t2 := locationsTask_healthy u l h2
    have t3 := datesTask_healthy u d h3
    have t4 := relationsTask_healthy u r h4
    have hch : channelMsgs u = [some ("FetchArtists" ++ rest), none, none, none] := by
      unfold channelMsgs
      rw [he, t2, t3, t4]
      rfl
    have hone : (channelMsgs u).filterMap id = ["FetchArtists" ++ rest] := by
      rw [hch]
      rfl
    have herr : (arrival (channelMsgs u)).filterMap id = ["FetchArtists" ++ rest] := by
      have hp := harr.filterMap id
      rw [hone] at hp
      exact List.perm_singleton.mp hp
    refine ⟨rest, ?_, ?_⟩
    · rw [initializeData_snd, herr]
      rfl
    · rw [initializeData_fst, hc store.All_Artists, t2, t3, t4]
      rfl
  · intro a d r hF h2 h3 h4
    obtain ⟨rest, he, hc⟩ := locationsTask_fail u hF
    have t2 := artistsTask_healthy u a h2
    have t3 := datesTask_healthy u d h3
    have t4 := relationsTask_healthy u r h4
    have hch : channelMsgs u = [none, some ("FetchLocations" ++ rest), none, none] := by
      unfold channelMsgs
      rw [he, t2, t3, t4]
      rfl
    have hone : (channelMsgs u).filterMap id = ["FetchLocations" ++ rest] := by
      rw [hch]
      rfl
    have herr : (arrival (channelMsgs u)).filterMap id = ["FetchLocations" ++ rest] := by
      have hp := harr.filterMap id
      rw [hone] at hp
      exact List.perm_singleton.mp hp
    refine ⟨rest, ?_, ?_⟩
    · rw [initializeData_snd, herr]
      rfl
    · rw [initializeData_fst, hc store.All_Locations, t2, t3, t4]
      rfl
  · intro a l r hF h2 h3 h4
    obtain ⟨rest, he, hc⟩ := datesTask_fail u hF
    have t2 := artistsTask_healthy u a h2
    have t3 := locationsTask_healthy u l h3
    have t4 := relationsTask_healthy u r h4
    have hch : channelMsgs u = [none, none, some ("FetchDates" ++ rest), none] := by
      unfold channelMsgs
      rw [he, t2, t3, t4]
      rfl
    have hone : (channelMsgs u).filterMap id = ["FetchDates" ++ rest] := by
      rw [hch]
      rfl
    have herr : (arrival (channelMsgs u)).filterMap id = ["FetchDates" ++ rest] := by
      have hp := harr.filterMap id
      rw [hone] at hp
      exact List.perm_singleton.mp hp
    refine ⟨rest, ?_, ?_⟩
    · rw [initializeData_snd, herr]
      rfl
    · rw [initializeData_fst, hc store.All_Dates, t2, t3, t4]
      rfl
  · intro a l d hF h2 h3 h4
    obtain ⟨rest, he, hc⟩ := relationsTask_fail u hF
    have t2 := artistsTask_healthy u a h2
    have t3 := locationsTask_healthy u l h3
    have t4 := datesTask_healthy u d h4
    have hch : channelMsgs u = [none, none, none, some ("FetchRelations" ++ rest)] := by
      unfold channelMsgs
      rw [he, t2, t3, t4]
      rfl
    have hone : (channelMsgs u).filterMap id = ["FetchRelations" ++ rest] := by
      rw [hch]
      rfl
    have herr : (arrival (channelMsgs u)).filterMap id = ["FetchRelations" ++ rest] := by
      have hp := harr.filterMap id
      rw [hone] at hp
      exact List.perm_singleton.mp hp
    refine ⟨rest, ?_, ?_⟩
    · rw [initializeData_snd, herr]
      rfl
    · rw [initializeData_fst, hc store.All_Relations, t2, t3, t4]
      rfl

/-- C5 witness: Artists failing, the other three kinds healthy. -/
theorem c5_single_failure_isolation_witness :
    ∃ rest, (InitializeData partialUpstream store0 id).2 = some ["FetchArtists" ++ rest] ∧
      (InitializeData partialUpstream store0 id).1
        = { All_Artists := store0.All_Artists, All_Locations := sampleLocationsIndex.Index,
            All_Dates := sampleDatesIndex.Index, All_Relations := sampleRelationIndex.Index } :=
  (c5_single_failure_isolation partialUpstream store0 id (List.Perm.refl _)).1 sampleLocationsIndex sampleDatesIndex
    sampleRelationIndex (fun i => by simp [partialUpstream, FetchArtistsWithContext]) rfl rfl rfl
/-- C6.  When all four endpoints answer 200 with bodies that decode to the
expected shapes on the first attempt, `InitializeData` returns `none` (the
Go nil error slice) and all four collections hold the decoded data. -/
theorem c6_all_healthy_success (u : Upstream) (store : CatalogStore)
    (arrival : List (Option String) → List (Option String))
    (harr : (arrival (channelMsgs u)).Perm (channelMsgs u))
    (a : List Artists) (l : LocationsIndex) (d : DatesIndex) (r : RelationIndex)
    (hA : ArtistsHealthy u a) (hL : LocationsHealthy u l)
    (hD : DatesHealthy u d) (hR : RelationsHealthy u r) :
    (InitializeData u store arrival).2 = none ∧
    (InitializeData u store arrival).1
      = { All_Artists := a, All_Locations := l.Index,
          All_Dates := d.Index, All_Relations := r.Index } := by
  have t1 := artistsTask_healthy u a hA
  have t2 := locationsTask_healthy u l hL
  have t3 := datesTask_healthy u d hD
  have t4 := relationsTask_healthy u r hR
  have hch : channelMsgs u = [none, none, none, none] := by
    unfold channelMsgs
    rw [t1, t2, t3, t4]
    rfl
  have herr : (arrival (channelMsgs u)).filterMap id = [] := by
    have hnil : (channelMsgs u).filterMap id = [] := by
      rw [hch]
      rfl
    have hp := harr.filterMap id
    rw [hnil] at hp
    exact hp.eq_nil
  constructor
  · rw [initializeData_snd, herr]
    rfl
  · rw [initializeData_fst, t1, t2, t3, t4]
    rfl

/-- C6 witness: four healthy endpoints with one record each. -/
theorem c6_all_healthy_success_witness :
    (InitializeData healthyUpstream store0 id).2 = none ∧
    (InitializeData healthyUpstream store0 id).1
      = { All_Artists := [sampleArtist], All_Locations := sampleLocationsIndex.Index,
          All_Dates := sampleDatesIndex.Index, All_Relations := sampleRelationIndex.Index } :=
  c6_all_healthy_success healthyUpstream store0 id (List.Perm.refl _) [sampleArtist] sampleLocationsIndex
    sampleDatesIndex sampleRelationIndex rfl rfl rfl rfl
/-- C7.  For instantaneous attempts (so the shared deadline never
interferes): success on attempt k (1-based, k ≤ 3) is preceded by exactly
k − 1 backoff sleeps, and three failed attempts perform exactly two backoff
sleeps — at 0 ms and 1000 ms, both before the final attempt at 2000 ms, so no
sleep follows the final failed attempt. -/
theorem c7_backoff_sleep_counts {α : Type} (name : String) (oracle : Nat → AttemptSpec α)
    (hd : ∀ i, (oracle i).dur = 0) :
    (∀ k, 1 ≤ k → k ≤ 3 →
      (oracle (k - 1)).res.2 = none →
      (∀ i, i < k - 1 → (oracle i).res.2 ≠ none) →
      ∃ c sl,
        retryLoop name oracle fetchTimeoutMillis maxRetries (maxRetries + 1) 0 0 [] false none
          = ⟨.success c, sl, false⟩ ∧ sl.length = k - 1) ∧
    ((∀ i, i ≤ 2 → (oracle i).res.2 ≠ none) →
      retryLoop name oracle fetchTimeoutMillis maxRetries (maxRetries + 1) 0 0 [] false none
        = ⟨.exhausted (goExhaustedMsg name maxRetries none), [0, 1000], false⟩) := by
  have hgoal : retryLoop name oracle fetchTimeoutMillis maxRetries (maxRetries + 1) 0 0 [] false none
      = retryLoop name oracle 5000 2 3 0 0 [] false none := rfl
  rw [hgoal]
  constructor
  · intro k hk1 hk3 hsucc hfl
    interval_cases k
    · refine ⟨(oracle 0).res.1, [], ?_, rfl⟩
      have s := retryLoop_step_success name oracle 5000 2 2 0 0 [] false none
        (by decide) (by rw [hd 0]; decide) hsucc
      norm_num at s
      exact s
    · have h0 : (oracle 0).res.2 ≠ none := hfl 0 (by norm_num)
      have s1 := retryLoop_step_fail_sleep name oracle 5000 2 2 0 0 [] false none
        (by decide) (by rw [hd 0]; decide) h0 (by decide)
      rw [hd 0] at s1
      norm_num [backoffMillis] at s1
      have s2 := retryLoop_step_success name oracle 5000 2 1 1 1000 [0] false none
        (by decide) (by rw [hd 1]; decide) hsucc
      norm_num at s2
      refine ⟨(oracle 1).res.1, [0], ?_, rfl⟩
      rw [s1]
      exact s2
    · have h0 : (oracle 0).res.2 ≠ none := hfl 0 (by norm_num)
      have h1 : (oracle 1).res.2 ≠ none := hfl 1 (by norm_num)
      have s1 := retryLoop_step_fail_sleep name oracle 5000 2 2 0 0 [] false none
        (by decide) (by rw [hd 0]; decide) h0 (by decide)
      rw [hd 0] at s1
      norm_num [backoffMillis] at s1
      have s2 := retryLoop_step_fail_sleep name oracle 5000 2 1 1 1000 [0] false none
        (by decide) (by rw [hd 1]; decide) h1 (by decide)
      rw [hd 1] at s2
      norm_num [backoffMillis] at s2
      have s3 := retryLoop_step_success name oracle 5000 2 0 2 2000 [0, 1000] false none
        (by decide) (by rw [hd 2]; decide) hsucc
      norm_num at s3
      refine ⟨(oracle 2).res.1, [0, 1000], ?_, rfl⟩
      rw [s1, s2]
      exact s3
  · intro hfl
    have h0 : (oracle 0).res.2 ≠ none := hfl 0 (by norm_num)
    have h1 : (oracle 1).res.2 ≠ none := hfl 1 (by norm_num)
    have h2 : (oracle 2).res.2 ≠ none := hfl 2 (by norm_num)
    have s1 := retryLoop_step_fail_sleep name oracle 5000 2 2 0 0 [] false none
      (by decide) (by rw [hd 0]; decide) h0 (by decide)
    rw [hd 0] at s1
    norm_num [backoffMillis] at s1
    have s2 := retryLoop_step_fail_sleep name oracle 5000 2 1 1 1000 [0] false none
      (by decide) (by rw [hd 1]; decide) h1 (by decide)
    rw [hd 1] at s2
    norm_num [backoffMillis] at s2
    have s3 := retryLoop_step_fail_last name oracle 5000 2 0 2 2000 [0, 1000] false none
      (by decide) (by rw [hd 2]; decide) h2 (by decide)
    rw [hd 2] at s3
    norm_num at s3
    rw [s1, s2, s3]
    rfl
/-- C7 witness: first attempt fails, second succeeds — exactly one backoff
sleep. -/
theorem c7_backoff_sleep_counts_witness :
    ∃ c sl,
      retryLoop "FetchArtists" c7Oracle fetchTimeoutMillis maxRetries (maxRetries + 1)
          0 0 [] false none
        = ⟨.success c, sl, false⟩ ∧ sl.length = 2 - 1 :=
  (c7_backoff_sleep_counts "FetchArtists" c7Oracle
      (fun i => by by_cases h : i = 0 <;> simp [c7Oracle, h])).1 2
    (by norm_num) (by norm_num) rfl
    (fun i hi => by
      have h0 : i = 0 := by omega
      subst h0
      simp [c7Oracle])
/-- C8.  A non-200 response makes every fetcher return an error whose
message carries the observed numeric status code, and on every failure mode
(request error, transport error, non-200 status, undecodable body) every
fetcher returns no collection at all. -/
theorem c8_fetch_failure_modes (status : Nat) (hs : status ≠ 200)
    (b1 : Body (List Artists)) (b2 : Body LocationsIndex)
    (b3 : Body DatesIndex) (b4 : Body RelationIndex)
    (o1 : HttpOutcome (List Artists)) (o2 : HttpOutcome LocationsIndex)
    (o3 : HttpOutcome DatesIndex) (o4 : HttpOutcome RelationIndex) :
    ((FetchArtistsWithContext (.response status b1)).2
        = some ("API Unexpected status: " ++ toString status) ∧
     (FetchLocationsWithContext (.response status b2)).2
        = some ("API Unexpected status: " ++ toString status) ∧
     (FetchDatesWithContext (.response status b3)).2
        = some ("API Unexpected status: " ++ toString status) ∧
     (FetchRelationsWithContext (.response status b4)).2
        = some ("API Unexpected status: " ++ toString status)) ∧
    (((FetchArtistsWithContext o1).2 ≠ none → (FetchArtistsWithContext o1).1 = none) ∧
     ((FetchLocationsWithContext o2).2 ≠ none → (FetchLocationsWithContext o2).1 = none) ∧
     ((FetchDatesWithContext o3).2 ≠ none → (FetchDatesWithContext o3).1 = none) ∧
     ((FetchRelationsWithContext o4).2 ≠ none → (FetchRelationsWithContext o4).1 = none)) := by
  refine ⟨⟨?_, ?_, ?_, ?_⟩,
    fetchArtists_fail_no_coll o1, fetchLocations_fail_no_coll o2,
    fetchDates_fail_no_coll o3, fetchRelations_fail_no_coll o4⟩
  · simp only [FetchArtistsWithContext]
    rw [if_pos hs]
  · simp only [FetchLocationsWithContext]
    rw [if_pos hs]
  · simp only [FetchDatesWithContext]
    rw [if_pos hs]
  · simp only [FetchRelationsWithContext]
    rw [if_pos hs]

/-- C8 witness: status 500 and a transport failure for each of the four
fetchers. -/
theorem c8_fetch_failure_modes_witness :
    (((FetchArtistsWithContext (.response 500 (.malformed "bad"))).2
        = some ("API Unexpected status: " ++ toString 500)) ∧
     ((FetchLocationsWithContext (.response 500 (.malformed "bad"))).2
        = some ("API Unexpected status: " ++ toString 500)) ∧
     ((FetchDatesWithContext (.response 500 (.malformed "bad"))).2
        = some ("API Unexpected status: " ++ toString 500)) ∧
     ((FetchRelationsWithContext (.response 500 (.malformed "bad"))).2
        = some ("API Unexpected status: " ++ toString 500))) ∧
    (((FetchArtistsWithContext (.transportError "refused")).2 ≠ none →
        (FetchArtistsWithContext (.transportError "refused")).1 = none) ∧
     ((FetchLocationsWithContext (.transportError "refused")).2 ≠ none →
        (FetchLocationsWithContext (.transportError "refused")).1 = none) ∧
     ((FetchDatesWithContext (.transportError "refused")).2 ≠ none →
        (FetchDatesWithContext (.transportError "refused")).1 = none) ∧
     ((FetchRelationsWithContext (.transportError "refused")).2 ≠ none →
        (FetchRelationsWithContext (.transportError "refused")).1 = none)) :=
  c8_fetch_failure_modes 500 (by decide) (.malformed "bad") (.malformed "bad") (.malformed "bad") (.malformed "bad")
    (.transportError "refused") (.transportError "refused") (.transportError "refused")
    (.transportError "refused")
/-- C9, amended.  Once the shared deadline has fired and control reaches
the loop-top `ctx.Err()` check, the task reports a timeout failure, performs
no further backoff sleep (the sleep list is returned unchanged) and invokes
the fetcher on no further attempt (the run is identical for any other
oracle).  The original claim is stronger and false: see the counterexample
for the backoff sleep the code still performs between a mid-attempt deadline
firing and that check, and for the retry-exhaustion (not timeout) report when
the deadline fires during the final attempt. -/
theorem c9_deadline_loop_check {α : Type} (name : String) (oracle oracle2 : Nat → AttemptSpec α)
    (deadline mr fuel attempt now : Nat) (sleeps : List Nat) (cut : Bool)
    (oe : Option String) (h : deadline ≤ now) :
    retryLoop name oracle deadline mr (fuel + 1) attempt now sleeps cut oe
        = ⟨.timedOut (goTimedOutMsg name attempt), sleeps, cut⟩ ∧
    retryLoop name oracle deadline mr (fuel + 1) attempt now sleeps cut oe
        = retryLoop name oracle2 deadline mr (fuel + 1) attempt now sleeps cut oe := by
  constructor
  · exact retryLoop_step_timeout name oracle deadline mr fuel attempt now sleeps cut oe h
  · rw [retryLoop_step_timeout name oracle deadline mr fuel attempt now sleeps cut oe h,
        retryLoop_step_timeout name oracle2 deadline mr fuel attempt now sleeps cut oe h]
/-- C9 witness: the amended theorem at the state reached after
`midAttemptCutOracle` has consumed the whole budget on attempt 0. -/
theorem c9_deadline_loop_check_witness :
    retryLoop "FetchArtists" midAttemptCutOracle fetchTimeoutMillis maxRetries
        (maxRetries + 1) 1 6000 [5000] true none
      = ⟨.timedOut (goTimedOutMsg "FetchArtists" 1), [5000], true⟩ ∧
    retryLoop "FetchArtists" midAttemptCutOracle fetchTimeoutMillis maxRetries
        (maxRetries + 1) 1 6000 [5000] true none
      = retryLoop "FetchArtists" sharedBudgetOracle fetchTimeoutMillis maxRetries
          (maxRetries + 1) 1 6000 [5000] true none :=
  c9_deadline_loop_check "FetchArtists" midAttemptCutOracle sharedBudgetOracle fetchTimeoutMillis maxRetries
    maxRetries 1 6000 [5000] true none (by decide)
/-- C9 counterexample.  With `midAttemptCutOracle` (every attempt would
take 6 s) the deadline fires during attempt 0 (`cutShort = true`), yet the
task still performs a backoff sleep starting at 5000 ms — at the deadline,
i.e. after it fired.  With `finalAttemptCutOracle` the deadline fires during
the third attempt and the task reports retry exhaustion, not a timeout
failure.  Both contradict the claim that after the deadline fires the task
reports a timeout and performs no further backoff sleeps. -/
theorem c9_post_deadline_counterexample :
    (retryLoop "FetchArtists" midAttemptCutOracle fetchTimeoutMillis maxRetries
        (maxRetries + 1) 0 0 [] false none
      = ⟨.timedOut (goTimedOutMsg "FetchArtists" 1), [5000], true⟩) ∧
    fetchTimeoutMillis ≤ 5000 ∧
    (retryLoop "FetchArtists" finalAttemptCutOracle fetchTimeoutMillis maxRetries
        (maxRetries + 1) 0 0 [] false none
      = ⟨.exhausted "FetchArtists failed after 3 attempts: <nil>", [0, 1000], true⟩) :=
  ⟨rfl, by decide, rfl⟩
/-- C10.  A 200 response whose body decodes to an empty `index` is a
success: the fetcher returns the empty collection with no error, the
retrying task succeeds, and `InitializeData` replaces the stored Locations
collection — even a previously populated one — with the empty list. -/
theorem c10_empty_index_replaces_store (u : Upstream) (store : CatalogStore)
    (arrival : List (Option String) → List (Option String))
    (hL : LocationsHealthy u ⟨[]⟩) (hpop : store.All_Locations ≠ []) :
    FetchLocationsWithContext (.response 200 (.value ⟨[]⟩)) = (some [], none) ∧
    taskError (locationsTask u) = none ∧
    (InitializeData u store arrival).1.All_Locations = [] := by
  have t := locationsTask_healthy u ⟨[]⟩ hL
  refine ⟨rfl, ?_, ?_⟩
  · rw [t]
    rfl
  · have h1 : (InitializeData u store arrival).1.All_Locations
        = taskColl store.All_Locations (locationsTask u) := rfl
    rw [h1, t]
    rfl
/-- C10 witness: a store holding one location beforehand ends up with an
empty Locations collection after a refresh whose Locations body is
`index: []`. -/
theorem c10_empty_index_replaces_store_witness :
    FetchLocationsWithContext (.response 200 (.value ⟨[]⟩)) = (some [], none) ∧
    taskError (locationsTask emptyLocUpstream) = none ∧
    (InitializeData emptyLocUpstream popLocStore id).1.All_Locations = [] :=
  c10_empty_index_replaces_store emptyLocUpstream popLocStore id rfl (by decide)

end GroupieTracker
